import Mathlib

/-!
Shallow embedding of two PsychoPy source files:

* `src/app/pavlovia_ui/functions.py` — dialog-driven helpers for synchronising
  a local working copy with a remote pavlovia project (`setLocalPath`,
  `logInPavlovia`, `showCommitDialog`).
* `src/experiment/components/joyButtons/keyboardJoystick.py` — a keyboard
  driven joystick emulator (`Joystick`).

The GUI dialogs are modal and synchronous: each function blocks until the
dialog closes and then branches on the result.  We therefore model the
dialog outcome (cancel vs confirm plus the values the user typed or chose)
as an explicit input of the embedded function.  Side effects on external
collaborators (the project object, the pavlovia session) are modelled by
explicit state passing: the project state records the mutable `localRoot`
attribute and a trace of the `stageFiles` / `commit` calls issued against it.
-/

/-- Filesystem operations used by `setLocalPath`: `os.path.isfile` and
`os.path.split(p)[0]` (the directory part of a path). -/
structure FS where
  isFile : String → Bool
  parentDir : String → String

/-- The slice of the pavlovia project object that `setLocalPath` touches:
its mutable `localRoot` path.  `hasLocalRoot` models the Python membership
test `'localRoot' in project`. -/
structure PathProject where
  localRoot : String
  hasLocalRoot : Bool

/-- The `origPath` computation at the top of `setLocalPath`:
explicit `path` argument if non-empty (Python truthiness), else the
project's `localRoot` when a project with that attribute was supplied,
else the empty string. -/
def origPathOf (project : Option PathProject) (path : String) : String :=
  if path ≠ "" then path
  else
    match project with
    | some p => if p.hasLocalRoot then p.localRoot else ""
    | none => ""

/-- `setLocalPath(parent, project, path)`.  The directory dialog outcome is the
input `dlgResult`: `none` when the user cancelled (ShowModal did not return
ID_OK, so the Python function falls off the end and returns `None`), and
`some chosen` when the user confirmed with path `chosen`.  On confirm the
code resolves a file path to its containing directory, mutates
`project.localRoot` only when the resolved path differs from `origPath`,
and then returns the resolved path unconditionally.  Result: the returned
value paired with the project state after the call. -/
def setLocalPath (fs : FS) (project : Option PathProject) (path : String)
    (dlgResult : Option String) : Option String × Option PathProject :=
  let origPath := origPathOf project path
  match dlgResult with
  | none => (none, project)
  | some chosen =>
    let newPath := if fs.isFile chosen then fs.parentDir chosen else chosen
    let projectAfter :=
      if newPath ≠ origPath then
        match project with
        | some p => some { p with localRoot := newPath }
        | none => none
      else project
    (some newPath, projectAfter)

/-- The change set returned by `project.getChanges()`: four category buckets. -/
structure ChangeDict where
  untracked : List String
  changed : List String
  deleted : List String
  renamed : List String

/-- The slice of the project object that `showCommitDialog` touches.
`changeDict` and `changeList` are the two components returned by
`project.getChanges()`; `stagedCalls` and `commitCalls` are traces of the
`project.stageFiles(...)` and `project.commit(...)` invocations, so that
"never invoked" and "invoked exactly once with these arguments" are
expressible as facts about the post-state. -/
structure CommitProject where
  changeDict : ChangeDict
  changeList : List String
  stagedCalls : List (List String)
  commitCalls : List String

/-- One line of the `infoStr` summary: `"\t{}: {} files\n"` formatted with the
display label and the count, emitted only when the bucket is non-empty. -/
def categLine (label : String) (changes : List String) : String :=
  if changes = [] then ""
  else "\t" ++ label ++ ": " ++ toString changes.length ++ " files\n"

/-- The `infoStr` built by `showCommitDialog`: a header followed by one line
per non-empty category, in the fixed order untracked, changed, deleted,
renamed.  The loop renames the category `untracked` to `New` before applying
`str.title()`; the display labels are therefore the constants
`New`, `Changed`, `Deleted`, `Renamed`. -/
def infoStrOf (cd : ChangeDict) : String :=
  "Changes to commit:\n"
    ++ categLine "New" cd.untracked
    ++ categLine "Changed" cd.changed
    ++ categLine "Deleted" cd.deleted
    ++ categLine "Renamed" cd.renamed

/-- Outcome of the commit dialog: the user cancels, or confirms with the final
contents of the summary (title) and detail (description) text controls. -/
inductive CommitDlgOutcome where
  | cancel : CommitDlgOutcome
  | ok (title descr : String) : CommitDlgOutcome

/-- Assembly of the final commit message: the detail body is appended to the
summary, separated by a blank line, only when the detail body is non-empty
(Python truthiness of `commitDescrCtrl.GetValue()`). -/
def commitMsgOf (title descr : String) : String :=
  if descr ≠ "" then title ++ "\n\n" ++ descr else title

/-- `showCommitDialog(parent, project, initMsg)`.  Queries
`project.getChanges()`; if the flat change list is empty returns `0` at once
(the dialog is never built, so the result does not depend on any dialog
outcome).  Otherwise the dialog outcome decides: cancel returns `-1` with the
project untouched; confirm assembles the commit message, calls
`project.stageFiles(changeList)` then `project.commit(msg)` and returns `1`.
Result: the status code paired with the project state after the call. -/
def showCommitDialog (p : CommitProject) (outcome : CommitDlgOutcome) :
    Int × CommitProject :=
  if p.changeList = [] then (0, p)
  else
    match outcome with
    | CommitDlgOutcome.cancel => (-1, p)
    | CommitDlgOutcome.ok title descr =>
      let msg := commitMsgOf title descr
      let p1 := { p with stagedCalls := p.stagedCalls ++ [p.changeList] }
      let p2 := { p1 with commitCalls := p1.commitCalls ++ [msg] }
      (1, p2)

/-- The pavlovia session backend state: the trace of `login` calls (token and
rememberMe flag) and the current session's user, `none` before any login. -/
structure PavloviaSession where
  loginCalls : List (String × Bool)
  currentUser : Option String

/-- Modelled from the spec: the session backend collaborator
(`psychopy.projects.pavlovia`, part of this repository but not under `src/`)
must expose `login(token, rememberMe)` and a current-session user accessor.
`login` records the call and establishes the session whose user identity the
backend derives from the token (abstracted here as `userOfToken`). -/
def pavloviaLogin (userOfToken : String → String) (token : String)
    (rememberMe : Bool) (s : PavloviaSession) : PavloviaSession :=
  { loginCalls := s.loginCalls ++ [(token, rememberMe)],
    currentUser := some (userOfToken token) }

/-- `logInPavlovia(parent)`.  The modal minibrowser result state is the input
`tokenInfo`: `none` when the window was dismissed without logging in
(`dlg.tokenInfo` falsy, the function falls off the end returning `None`),
`some token` when it holds a token.  On a token, the code calls
`pavlovia.login(token, rememberMe=True)` and returns
`pavlovia.getCurrentSession().user`.  Result: the returned user identity
paired with the session backend state after the call. -/
def logInPavlovia (userOfToken : String → String) (tokenInfo : Option String)
    (s : PavloviaSession) : Option String × PavloviaSession :=
  match tokenInfo with
  | some token =>
    let s1 := pavloviaLogin userOfToken token true s
    (s1.currentUser, s1)
  | none => (none, s)

/-- A snapshot of the instantaneous keyboard state: the currently pressed
keys, each paired with its modifier snapshot (a predicate on modifier
names such as ctrl and alt). -/
abbrev Keyboard : Type := List (String × (String → Bool))

/-- The keyboard joystick emulator object.  `device_number`, `numberKeys` and
`modifierKeys` are the fields set by `__init__`; `state` is the cached
last-known button vector written by `getAllButtons` (`none` before the first
poll, since Python creates the attribute on first assignment). -/
structure Joystick where
  device_number : Int
  numberKeys : List String
  modifierKeys : List String
  state : Option (List Bool)

/-- `Joystick.__init__(self, device_number)`: stores the device number and the
fixed digit and modifier key lists. -/
def Joystick.init (device_number : Int) : Joystick :=
  { device_number := device_number,
    numberKeys := ["0", "1", "2", "3", "4", "5", "6", "7", "8", "9"],
    modifierKeys := ["ctrl", "alt"],
    state := none }

/-- Modelled from the spec: `event.getKeys(keyList=..., modifiers=True)` of the
keyboard input collaborator (`psychopy.event`, part of this repository but not
under `src/`) — per the spec a pure, synchronous read of the instantaneous
keyboard state: the currently pressed keys filtered to the candidate list,
each with its per-key modifier-state snapshot attached. -/
def getKeys (kb : Keyboard) (keyList : List String) :
    List (String × (String → Bool)) :=
  kb.filter (fun kv => keyList.contains kv.1)

/-- `Joystick.getNumButtons`: the length of the digit key list. -/
def Joystick.getNumButtons (j : Joystick) : Nat :=
  j.numberKeys.length

/-- The `values` list comprehension in `getAllButtons`: the keys among the
polled digit keys whose modifier snapshot has every required modifier
active. -/
def pressedWithMods (j : Joystick) (kb : Keyboard) : List String :=
  ((getKeys kb j.numberKeys).filter
      (fun kv => j.modifierKeys.all (fun m => kv.2 m))).map
    (fun kv => kv.1)

/-- `Joystick.getAllButtons`: polls the keyboard for the digit keys with
modifier information, keeps those with all required modifiers active, builds
the boolean vector `[key in values for key in self.numberKeys]`, caches it in
`self.state` and returns it.  Result: the vector paired with the object state
after the call. -/
def Joystick.getAllButtons (j : Joystick) (kb : Keyboard) :
    List Bool × Joystick :=
  let values := pressedWithMods j kb
  let st := j.numberKeys.map (fun k => values.contains k)
  (st, { j with state := some st })

/-- Keyboard snapshot: digit key 5 pressed with both ctrl and alt active. -/
def kbFive : Keyboard :=
  [("5", fun m => m == "ctrl" || m == "alt")]

/-- Keyboard snapshot: digit key 5 pressed but with ctrl released (only alt
active). -/
def kbFiveNoCtrl : Keyboard :=
  [("5", fun m => m == "alt")]

example : ((Joystick.init 0).getAllButtons kbFive).1
    = [false, false, false, false, false, true, false, false, false, false] := rfl

example : ((Joystick.init 0).getAllButtons kbFiveNoCtrl).1
    = [false, false, false, false, false, false, false, false, false, false] := rfl

example : setLocalPath
    { isFile := fun _ => false, parentDir := fun s => s }
    (some { localRoot := "/proj", hasLocalRoot := true }) ""
    (some "/proj")
    = (some "/proj", some { localRoot := "/proj", hasLocalRoot := true }) := rfl

example : showCommitDialog
    { changeDict := { untracked := ["a.txt"], changed := [], deleted := [], renamed := [] },
      changeList := ["a.txt"], stagedCalls := [], commitCalls := [] }
    (CommitDlgOutcome.ok "Add file" "")
    = (1, { changeDict := { untracked := ["a.txt"], changed := [], deleted := [], renamed := [] },
            changeList := ["a.txt"], stagedCalls := [["a.txt"]], commitCalls := ["Add file"] }) := rfl

example : infoStrOf { untracked := ["a.txt"], changed := [], deleted := [], renamed := [] }
    = "Changes to commit:\n\tNew: 1 files\n" := by decide

/-! Concrete instances used by witnesses and scenario claims. -/

/-- The change dict of the spec scenario: one untracked file `a.txt`. -/
def scenarioChangeDict : ChangeDict :=
  { untracked := ["a.txt"], changed := [], deleted := [], renamed := [] }

/-- The spec scenario project: `getChanges()` yields the dict above with flat
list `["a.txt"]`; no staging or commit calls have happened yet. -/
def scenarioProject : CommitProject :=
  { changeDict := scenarioChangeDict, changeList := ["a.txt"],
    stagedCalls := [], commitCalls := [] }

/-- A project whose queried change set is empty. -/
def emptyChangesProject : CommitProject :=
  { changeDict := { untracked := [], changed := [], deleted := [], renamed := [] },
    changeList := [], stagedCalls := [], commitCalls := [] }

/-- A filesystem on which no path is a file. -/
def fsPlain : FS := { isFile := fun _ => false, parentDir := fun s => s }

/-- A filesystem on which exactly `/a/b.txt` is a file, inside directory
`/a`. -/
def fsWitness : FS :=
  { isFile := fun s => s == "/a/b.txt", parentDir := fun _ => "/a" }

/-- A project whose local root is `/home/user/proj`. -/
def projOrig : PathProject := { localRoot := "/home/user/proj", hasLocalRoot := true }

/-- A project whose local root is `/other`. -/
def projOther : PathProject := { localRoot := "/other", hasLocalRoot := true }

/-! Helper lemmas for the joystick button-vector characterisation. -/

/-- A digit key string is reported pressed-with-modifiers exactly when some
entry of the keyboard snapshot carries that key with both ctrl and alt
active. -/
theorem contains_pressedWithMods (d : Int) (kb : Keyboard) (s : String)
    (hs : (Joystick.init d).numberKeys.contains s = true) :
    ((pressedWithMods (Joystick.init d) kb).contains s = true ↔
      ∃ m, (s, m) ∈ kb ∧ m "ctrl" = true ∧ m "alt" = true) := by
  rw [List.elem_iff] at hs ⊢
  simp [Joystick.init] at hs
  simp [pressedWithMods, getKeys, List.mem_filter, List.mem_map, Joystick.init]
  constructor
  · rintro ⟨m, hm, ⟨h1, h2⟩, _⟩
    exact ⟨m, hm, h1, h2⟩
  · rintro ⟨m, hm, h1, h2⟩
    exact ⟨m, hm, ⟨h1, h2⟩, hs⟩

/-- Entry `i` of the button vector is the pressed-with-modifiers test of the
digit string of `i`. -/
theorem getAllButtons_getD (d : Int) (kb : Keyboard) (i : Nat) (h : i < 10) :
    ((Joystick.init d).getAllButtons kb).1.getD i false
      = (pressedWithMods (Joystick.init d) kb).contains (toString i) := by
  interval_cases i <;> rfl

/-- The digit string of every `i < 10` is one of the emulator's number
keys. -/
theorem digit_mem (i : Nat) (h : i < 10) :
    (Joystick.init 0).numberKeys.contains (toString i) = true := by
  interval_cases i <;> rfl

/-! Claim theorems. -/

/-- C1: at an input where the user confirms the directory dialog with exactly
the original default path, the code leaves `project.localRoot` unmodified —
but, contrary to the docstring ("None for no change"), it still returns the
path rather than the no-change sentinel: the `return newPath` statement sits
outside the `if newPath != origPath` block. -/
theorem setLocalPath_unchanged_path_behaviour :
    setLocalPath fsPlain (some projOrig) "" (some "/home/user/proj")
      = (some "/home/user/proj", some projOrig) ∧
    origPathOf (some projOrig) "" = "/home/user/proj" :=
  ⟨rfl, rfl⟩

/-- C2: when the queried flat change list is empty, `showCommitDialog`
returns `0` with the project untouched (no `stageFiles`, no `commit`), and
the result does not depend on any dialog outcome — the dialog is never
shown. -/
theorem showCommitDialog_empty_changes (p : CommitProject)
    (outcome : CommitDlgOutcome) (h : p.changeList = []) :
    showCommitDialog p outcome = (0, p) := by
  simp [showCommitDialog, h]

theorem showCommitDialog_empty_changes_witness :
    showCommitDialog emptyChangesProject CommitDlgOutcome.cancel
      = (0, emptyChangesProject) :=
  showCommitDialog_empty_changes emptyChangesProject CommitDlgOutcome.cancel rfl

/-- C3: with a non-empty change set, cancelling the commit dialog returns
`-1` and leaves the project untouched: no `stageFiles` and no `commit` call
is recorded. -/
theorem showCommitDialog_cancel_unchanged (p : CommitProject)
    (h : p.changeList ≠ []) :
    showCommitDialog p CommitDlgOutcome.cancel = (-1, p) := by
  simp [showCommitDialog, h]

theorem showCommitDialog_cancel_unchanged_witness :
    showCommitDialog scenarioProject CommitDlgOutcome.cancel
      = (-1, scenarioProject) :=
  showCommitDialog_cancel_unchanged scenarioProject (by decide)

/-- C4: with a non-empty change set, confirming stages exactly the flat file
list from `getChanges`, commits the assembled message, and returns `1`; in
the spec scenario (one untracked file `a.txt`) the summary text contains
"New: 1 files" and confirming with title "Add file" and empty detail yields
`stageFiles(["a.txt"])`, `commit("Add file")` and result `1`. -/
theorem showCommitDialog_confirm_stages_and_commits (p : CommitProject)
    (title descr : String) (h : p.changeList ≠ []) :
    showCommitDialog p (CommitDlgOutcome.ok title descr)
      = (1, { p with stagedCalls := p.stagedCalls ++ [p.changeList],
                     commitCalls := p.commitCalls ++ [commitMsgOf title descr] }) ∧
    (∃ pre post, infoStrOf scenarioChangeDict = pre ++ "New: 1 files" ++ post) ∧
    showCommitDialog scenarioProject (CommitDlgOutcome.ok "Add file" "")
      = (1, { scenarioProject with
                stagedCalls := [["a.txt"]], commitCalls := ["Add file"] }) := by
  refine ⟨?_, ⟨"Changes to commit:\n\t", "\n", by decide⟩, rfl⟩
  simp [showCommitDialog, h]

theorem showCommitDialog_confirm_stages_and_commits_witness :
    showCommitDialog scenarioProject (CommitDlgOutcome.ok "Add file" "")
      = (1, { scenarioProject with
                stagedCalls := [["a.txt"]], commitCalls := ["Add file"] }) :=
  (showCommitDialog_confirm_stages_and_commits scenarioProject "Add file" ""
    (by decide)).2.2

/-- C5: the committed message is the summary with the detail body appended
after a blank line when the detail is non-empty, and the summary exactly when
the detail is empty. -/
theorem commit_message_assembly (p : CommitProject) (s d : String)
    (h : p.changeList ≠ []) :
    ((showCommitDialog p (CommitDlgOutcome.ok s d)).2.commitCalls
        = p.commitCalls ++ [commitMsgOf s d]) ∧
    (d ≠ "" → commitMsgOf s d = s ++ "\n\n" ++ d) ∧
    (d = "" → commitMsgOf s d = s) := by
  refine ⟨by simp [showCommitDialog, h], ?_, ?_⟩ <;>
    intro hd <;> simp [commitMsgOf, hd]

theorem commit_message_assembly_witness :
    (showCommitDialog scenarioProject
        (CommitDlgOutcome.ok "Fix" "details")).2.commitCalls
      = ["Fix\n\ndetails"] :=
  ((commit_message_assembly scenarioProject "Fix" "details" (by decide)).1).trans
    (by decide)

/-- C6: when the confirmed dialog result is a file path, the effective new
path is that file's containing directory, and when a project is supplied and
the resolved path differs from the original default, `project.localRoot` is
set to the containing directory. -/
theorem setLocalPath_file_resolves_to_dir (fs : FS)
    (project : Option PathProject) (path f : String)
    (hfile : fs.isFile f = true) :
    (setLocalPath fs project path (some f)).1 = some (fs.parentDir f) ∧
    (∀ p : PathProject, project = some p →
      fs.parentDir f ≠ origPathOf project path →
      (setLocalPath fs project path (some f)).2
        = some { p with localRoot := fs.parentDir f }) := by
  constructor
  · simp [setLocalPath, hfile]
  · intro p hp hdiff
    subst hp
    simp [setLocalPath, hfile, hdiff]

theorem setLocalPath_file_resolves_to_dir_witness :
    (setLocalPath fsWitness (some projOther) "" (some "/a/b.txt")).1
        = some "/a" ∧
    (setLocalPath fsWitness (some projOther) "" (some "/a/b.txt")).2
        = some { projOther with localRoot := "/a" } := by
  have h := setLocalPath_file_resolves_to_dir fsWitness (some projOther) ""
    "/a/b.txt" (by decide)
  exact ⟨h.1, h.2 projOther rfl (by decide)⟩

/-- C7: when the authentication surface's result state carries a token,
`logInPavlovia` performs exactly one backend login with that token and
`rememberMe = true` and returns the current session's user; when the surface
is dismissed without token information it returns nothing and the session
backend is untouched (no login call). -/
theorem logInPavlovia_spec (userOfToken : String → String)
    (s : PavloviaSession) (token : String) :
    logInPavlovia userOfToken (some token) s
      = (some (userOfToken token),
         { loginCalls := s.loginCalls ++ [(token, true)],
           currentUser := some (userOfToken token) }) ∧
    logInPavlovia userOfToken none s = (none, s) :=
  ⟨rfl, rfl⟩

/-- C8: `getNumButtons` is the constant 10, the polled vector has ten
entries, entry `i` is true exactly when the keyboard snapshot reports digit
key `str(i)` pressed with both required modifiers (ctrl and alt)
simultaneously active; pressing 5 with both modifiers yields true only at
index 5, and releasing ctrl while holding 5 with alt yields the all-false
vector. -/
theorem joystick_button_vector_spec (d : Int) (kb : Keyboard) (i : Nat)
    (h : i < 10) :
    (Joystick.init d).getNumButtons = 10 ∧
    ((Joystick.init d).getAllButtons kb).1.length = 10 ∧
    (((Joystick.init d).getAllButtons kb).1.getD i false = true ↔
      ∃ m, (toString i, m) ∈ kb ∧ m "ctrl" = true ∧ m "alt" = true) ∧
    ((Joystick.init 0).getAllButtons kbFive).1
      = [false, false, false, false, false, true, false, false, false, false] ∧
    ((Joystick.init 0).getAllButtons kbFiveNoCtrl).1
      = [false, false, false, false, false, false, false, false, false, false] := by
  refine ⟨rfl, rfl, ?_, rfl, rfl⟩
  rw [getAllButtons_getD d kb i h]
  exact contains_pressedWithMods d kb (toString i) (digit_mem i h)

theorem joystick_button_vector_spec_witness :
    (Joystick.init 7).getNumButtons = 10 ∧
    ((Joystick.init 7).getAllButtons kbFive).1.getD 5 false = true :=
  ⟨(joystick_button_vector_spec 7 kbFive 5 (by decide)).1,
   ((joystick_button_vector_spec 7 kbFive 5 (by decide)).2.2.1).mpr
     ⟨fun m => m == "ctrl" || m == "alt", List.mem_singleton.mpr rfl, rfl, rfl⟩⟩

/-- C9: for a fixed keyboard snapshot, polling is idempotent and its only
side effect is overwriting the cached state: the first poll changes nothing
but `state`, and a second poll returns the same vector and leaves the object
in the same state. -/
theorem getAllButtons_idempotent_state_only (j : Joystick) (kb : Keyboard) :
    (j.getAllButtons kb).2 = { j with state := some (j.getAllButtons kb).1 } ∧
    ((j.getAllButtons kb).2.getAllButtons kb).1 = (j.getAllButtons kb).1 ∧
    ((j.getAllButtons kb).2.getAllButtons kb).2
      = { j with state := some (j.getAllButtons kb).1 } :=
  ⟨rfl, rfl, rfl⟩

/-- C10: the device number passed to the constructor influences no observable
output: two instances built with any two device numbers agree on the button
vector for every keyboard snapshot and on the button count. -/
theorem device_number_no_influence (d1 d2 : Int) (kb : Keyboard) :
    ((Joystick.init d1).getAllButtons kb).1
        = ((Joystick.init d2).getAllButtons kb).1 ∧
    (Joystick.init d1).getNumButtons = (Joystick.init d2).getNumButtons :=
  ⟨rfl, rfl⟩
